import Mathlib

/-!
# Verification of the config-dashboard server (src/server.py)

Shallow embedding of the configuration-store core of `src/server.py`:
the `Config` dataclass with its `from_dict` defaulting/coercion logic,
the JSON-file record store (`_load_store`, `_save_store`), the resolver
(`get_cfg`) and the updater (`set_cfg`), the bearer-token gate
(`_require_auth`) together with the write endpoint (`api_update_config`),
and the payload construction of the HTML form handler (`html_post_form`).

Modelling choices, all stated where they are used:
* Python floats are modelled as rationals (`ℚ`); every numeric value the
  program manipulates is produced by `float()`/`int()` on decimal data.
* JSON / form values are the inductive `Val` (none, bool, int, float, str).
* A Python `dict` is an association list; only key lookup and key update
  are ever observed by the embedded code, so list order is fixed to
  mirror insertion order where the source fixes it.
* `float(s)` / `int(s)` on strings are modelled by a decimal-literal
  parser (optional surrounding whitespace, optional sign, digits with an
  optional single decimal point for floats); exponents, `inf`, `nan` and
  underscore separators are not modelled and are treated as unparsable.
* The backing JSON file is the `Storage` type; `Storage.absent` is a
  missing file, `Storage.corrupt` an unreadable or malformed one.
* A raised Python exception is `Except.error ()`.
-/

namespace Server

/-- A Python/JSON value as it can reach the config core: `None`, a bool,
an int, a float (modelled as `ℚ`) or a string. -/
inductive Val where
  | vnone : Val
  | vbool (b : Bool) : Val
  | vint (n : ℤ) : Val
  | vfloat (q : ℚ) : Val
  | vstr (s : String) : Val
deriving DecidableEq, Repr

/-- A Python dict with string keys, as an association list. -/
abbrev Dict := List (String × Val)

/-- `dlookup k d` is Python `d.get(k)`: the value at key `k`, if any. -/
def dlookup {α : Type} (k : String) : List (String × α) → Option α
  | [] => none
  | (a, v) :: t => if a = k then some v else dlookup k t

/-- `d.get(k, v0)`: lookup with a default. -/
def dget (d : Dict) (k : String) (v0 : Val) : Val := (dlookup k d).getD v0

/-- Python `d[k] = v`: replace the value at `k` in place, or append the
key if it is new (insertion order of the other keys is kept). -/
def setKey {α : Type} : List (String × α) → String → α → List (String × α)
  | [], k, v => [(k, v)]
  | (a, b) :: t, k, v => if a = k then (k, v) :: t else (a, b) :: setKey t k v

/-- Python `{**a, **b}`: keys of `b` override keys of `a`.  Only lookups
on the merged dict are ever observed by the embedded code (`from_dict`
reads a fixed set of keys), so the merge is represented with the
overriding entries in front. -/
def dictUnion (a b : Dict) : Dict := b ++ a

/-! ## The decimal fragment of Python `float()` / `int()` on strings -/

/-- All characters are decimal digits. -/
def isDigits (cs : List Char) : Bool := cs.all Char.isDigit

/-- Numeric value of a digit string. -/
def natOfDigits (cs : List Char) : ℕ :=
  cs.foldl (fun acc c => 10 * acc + (c.toNat - 48)) 0

/-- Strip one optional leading sign, returning the sign and the rest. -/
def splitSign : List Char → ℤ × List Char
  | '+' :: t => (1, t)
  | '-' :: t => (-1, t)
  | cs => (1, cs)

/-- Python `str.strip()` (also done internally by `float()`/`int()`). -/
def trimChars (cs : List Char) : List Char :=
  ((cs.dropWhile Char.isWhitespace).reverse.dropWhile Char.isWhitespace).reverse

/-- Split at the first `'.'`, if any. -/
def breakDot : List Char → List Char × Option (List Char)
  | [] => ([], none)
  | '.' :: t => ([], some t)
  | c :: t => let r := breakDot t; (c :: r.1, r.2)

/-- `float(s)` for a string `s`, on the decimal-literal fragment of
Python's grammar: optional surrounding whitespace, optional sign, digits
with at most one decimal point and at least one digit overall ("1",
"1.5", "1.", ".5").  Exponents, `inf`/`nan` and underscore separators
are not modelled: such strings (and every other non-literal) are
rejected, as Python rejects non-numeric strings with `ValueError`. -/
def parseFloat (s : String) : Option ℚ :=
  let p := splitSign (trimChars s.toList)
  match breakDot p.2 with
  | (ip, none) =>
      if ip ≠ [] ∧ isDigits ip then some ((p.1 : ℚ) * (natOfDigits ip : ℚ))
      else none
  | (ip, some fp) =>
      if fp.contains '.' then none
      else if (ip ≠ [] ∨ fp ≠ []) ∧ isDigits ip ∧ isDigits fp then
        some ((p.1 : ℚ) *
          ((natOfDigits ip : ℚ) + (natOfDigits fp : ℚ) / ((10 : ℚ) ^ fp.length)))
      else none

/-- `int(s)` for a string `s`: optional surrounding whitespace, optional
sign, one or more digits and nothing else.  In particular `int("10.9")`
fails. -/
def parseInt (s : String) : Option ℤ :=
  let p := splitSign (trimChars s.toList)
  if p.2 ≠ [] ∧ isDigits p.2 then some (p.1 * (natOfDigits p.2 : ℤ)) else none

/-- Python `int()` applied to a float truncates toward zero
(`int(10.9) == 10`, `int(-10.9) == -10`). -/
def ratTrunc (q : ℚ) : ℤ :=
  if 0 ≤ q.num then ((q.num.natAbs / q.den : ℕ) : ℤ)
  else -((q.num.natAbs / q.den : ℕ) : ℤ)

/-! ## Python coercions used by `Config.from_dict` (server.py lines 51-55) -/

/-- Python `float(v)`.  `None` raises `TypeError`; a non-numeric string
raises `ValueError`; bools are 1.0/0.0. -/
def pyFloat : Val → Except Unit ℚ
  | Val.vnone => Except.error ()
  | Val.vbool b => Except.ok (if b then 1 else 0)
  | Val.vint n => Except.ok (n : ℚ)
  | Val.vfloat q => Except.ok q
  | Val.vstr s =>
      match parseFloat s with
      | some q => Except.ok q
      | none => Except.error ()

/-- Python `int(v)`.  Floats truncate toward zero; a fractional or
non-numeric string raises `ValueError`; `None` raises `TypeError`. -/
def pyInt : Val → Except Unit ℤ
  | Val.vnone => Except.error ()
  | Val.vbool b => Except.ok (if b then 1 else 0)
  | Val.vint n => Except.ok n
  | Val.vfloat q => Except.ok (ratTrunc q)
  | Val.vstr s =>
      match parseInt s with
      | some n => Except.ok n
      | none => Except.error ()

/-- Python `bool(v)` (truthiness).  Never raises. -/
def pyBool : Val → Bool
  | Val.vnone => false
  | Val.vbool b => b
  | Val.vint n => n ≠ 0
  | Val.vfloat q => q ≠ 0
  | Val.vstr s => s ≠ ""

deriving instance DecidableEq for Except

/-! ## The Config dataclass (server.py lines 38-56) -/

/-- The `Config` dataclass: five fields with declared defaults
`ratio=1.5, min_coins=100.0, min_ratio=1.5, min_sec_left=20,
alert_enabled=True`. -/
structure Config where
  ratio : ℚ
  min_coins : ℚ
  min_ratio : ℚ
  min_sec_left : ℤ
  alert_enabled : Bool
deriving DecidableEq, Repr

/-- The all-defaults record `Config()`. -/
def defaultConfig : Config :=
  { ratio := 1.5, min_coins := 100.0, min_ratio := 1.5,
    min_sec_left := 20, alert_enabled := true }

/-- The five declared field names, in dataclass order. -/
def fieldNames : List String :=
  ["ratio", "min_coins", "min_ratio", "min_sec_left", "alert_enabled"]

/-- `dataclasses.asdict`: the record as a plain field map, in field
order. -/
def asdict (c : Config) : Dict :=
  [("ratio", Val.vfloat c.ratio),
   ("min_coins", Val.vfloat c.min_coins),
   ("min_ratio", Val.vfloat c.min_ratio),
   ("min_sec_left", Val.vint c.min_sec_left),
   ("alert_enabled", Val.vbool c.alert_enabled)]

/-- `Config.from_dict(d)` (server.py lines 46-56): take each declared
field from `d` if the key is present, else its default (so unknown keys
of `d` are never read), then coerce the five values in source order
(`float`, `float`, `float`, `int`, `bool`); the first failing coercion
raises out of the call. -/
def from_dict (d : Dict) : Except Unit Config :=
  match pyFloat (dget d "ratio" (Val.vfloat 1.5)) with
  | Except.error e => Except.error e
  | Except.ok ratio =>
    match pyFloat (dget d "min_coins" (Val.vfloat 100.0)) with
    | Except.error e => Except.error e
    | Except.ok min_coins =>
      match pyFloat (dget d "min_ratio" (Val.vfloat 1.5)) with
      | Except.error e => Except.error e
      | Except.ok min_ratio =>
        match pyInt (dget d "min_sec_left" (Val.vint 20)) with
        | Except.error e => Except.error e
        | Except.ok min_sec_left =>
          Except.ok
            { ratio := ratio, min_coins := min_coins, min_ratio := min_ratio,
              min_sec_left := min_sec_left,
              alert_enabled := pyBool (dget d "alert_enabled" (Val.vbool true)) }

/-! ## Storage (server.py lines 60-70) -/

/-- The persisted table: customer id to raw stored field map. -/
abbrev Store := List (String × Dict)

/-- The state of the backing JSON file: missing, unreadable/malformed,
or holding a table. -/
inductive Storage where
  | absent : Storage
  | corrupt : Storage
  | table (s : Store) : Storage
deriving DecidableEq, Repr

/-- `_load_store()` (lines 60-66): a missing file gives `{}`; any read
or JSON-decode failure is caught and also gives `{}`; this function
never raises. -/
def _load_store : Storage → Store
  | Storage.absent => []
  | Storage.corrupt => []
  | Storage.table s => s

/-- Process environment of the server: `DEFAULT_CUSTOMER_ID` (default
"DEFAULT") and the optional `ADMIN_TOKEN`. -/
structure Env where
  default_customer_id : String
  admin_token : Option String
deriving DecidableEq, Repr

/-- Python `x or y` where `x` is an optional dict: `None` and the empty
dict are falsy, so either skips to `y`. -/
def pyOrD (x : Option Dict) (y : Dict) : Dict :=
  match x with
  | some d => if d.isEmpty then y else d
  | none => y

/-- `get_cfg(customer_id)` (lines 73-76): load the store, take
`store.get(customer_id) or store.get(DEFAULT_CUSTOMER_ID) or {}` and run
it through `Config.from_dict`.  Reads never write the store. -/
def get_cfg (env : Env) (st : Storage) (cid : String) : Except Unit Config :=
  let store := _load_store st
  from_dict (pyOrD (dlookup cid store)
    (pyOrD (dlookup env.default_customer_id store) []))

/-- `set_cfg(customer_id, data)` (lines 79-84): load the store, merge
`{**store.get(customer_id, {}), **data}` through `Config.from_dict`,
store the normalized record back under `customer_id` and save.  If
`from_dict` raises, the exception propagates before `_save_store` runs,
so the file keeps its previous state; on success the whole table is
written back. -/
def set_cfg (st : Storage) (cid : String) (data : Dict) :
    Storage × Except Unit Config :=
  let store := _load_store st
  match from_dict (dictUnion ((dlookup cid store).getD []) data) with
  | Except.error e => (st, Except.error e)
  | Except.ok cfg => (Storage.table (setKey store cid (asdict cfg)), Except.ok cfg)

/-! ## Auth gate and write endpoint (server.py lines 88-96, 106-112) -/

/-- Outcome of `_require_auth`: return normally, `abort(401)` or
`abort(403)`. -/
inductive AuthOutcome where
  | ok : AuthOutcome
  | unauthenticated : AuthOutcome
  | forbidden : AuthOutcome
deriving DecidableEq, Repr

/-- Python `s.startswith(p)`. -/
def pyStartsWith (s p : String) : Bool := p.toList.isPrefixOf s.toList

/-- Python `s.strip()`. -/
def pyStrip (s : String) : String := String.mk (trimChars s.toList)

/-- Drop the first `n` characters of a string.  Under the guard
`auth.startswith("Bearer ")`, Python's `auth.split(" ", 1)[1]` is
exactly the text after the first space, i.e. `auth[7:]`. -/
def pyDrop (s : String) (n : ℕ) : String := String.mk (s.toList.drop n)

/-- `_require_auth()` (lines 88-96).  `authHeader` is
`request.headers.get("Authorization", "")`, so a missing header is the
empty string.  `if not ADMIN_TOKEN` treats an unset (and an empty)
admin token as open mode.  Otherwise the header must start with
"Bearer " (else 401) and the stripped remainder must equal the token
exactly (else 403). -/
def _require_auth (env : Env) (authHeader : String) : AuthOutcome :=
  match env.admin_token with
  | none => AuthOutcome.ok
  | some tok =>
      if tok = "" then AuthOutcome.ok
      else if pyStartsWith authHeader "Bearer " = false then AuthOutcome.unauthenticated
      else if pyStrip (pyDrop authHeader 7) = tok then AuthOutcome.ok
      else AuthOutcome.forbidden

/-- Response of the POST `/api/config` endpoint, as far as the core is
concerned: success with the resulting record, an auth abort, or a
propagated coercion error. -/
inductive ApiResponse where
  | ok (c : Config) : ApiResponse
  | authAbort (a : AuthOutcome) : ApiResponse
  | valueError : ApiResponse
deriving DecidableEq, Repr

/-- `api_update_config()` (lines 106-112): `_require_auth` first; an
abort raises before `set_cfg` is reached, so a failed authorization
leaves the store untouched. -/
def api_update_config (env : Env) (authHeader : String) (st : Storage)
    (cid : String) (payload : Dict) : Storage × ApiResponse :=
  match _require_auth env authHeader with
  | AuthOutcome.ok =>
      match set_cfg st cid payload with
      | (st2, Except.ok cfg) => (st2, ApiResponse.ok cfg)
      | (st2, Except.error _) => (st2, ApiResponse.valueError)
  | a => (st, ApiResponse.authAbort a)

/-! ## HTML form payload construction (server.py lines 177-192) -/

/-- The `alert_enabled` value the form handler builds:
`form.get("alert_enabled") in ("1", "true", "True")`.  A missing field
gives `None`, which is not in the tuple, hence `False`. -/
def form_alert_enabled (form : Dict) : Bool :=
  match dlookup "alert_enabled" form with
  | some (Val.vstr s) => s = "1" ∨ s = "true" ∨ s = "True"
  | _ => false

/-- The `data` dict `html_post_form` passes to `set_cfg` (lines
182-190): the four numeric fields straight from the form (`None` when
missing), `alert_enabled` always a bool, then every key whose value is
`None` or `""` is removed. -/
def html_form_data (form : Dict) : Dict :=
  let data : Dict :=
    [("ratio", (dlookup "ratio" form).getD Val.vnone),
     ("min_ratio", (dlookup "min_ratio" form).getD Val.vnone),
     ("min_coins", (dlookup "min_coins" form).getD Val.vnone),
     ("min_sec_left", (dlookup "min_sec_left" form).getD Val.vnone),
     ("alert_enabled", Val.vbool (form_alert_enabled form))]
  data.filter (fun p => ¬(p.2 = Val.vnone ∨ p.2 = Val.vstr ""))

/-! ## Field-coercion failure predicates (for the error-handling claims) -/

/-- The four numeric field names. -/
def numericFields : List String := ["ratio", "min_coins", "min_ratio", "min_sec_left"]

/-- `coerceFails k v`: storing `v` under declared field `k` makes the
coercion step of `from_dict` raise.  `alert_enabled` uses `bool()`,
which never raises, and unknown keys are never coerced at all. -/
def coerceFails (k : String) (v : Val) : Bool :=
  if k = "ratio" ∨ k = "min_coins" ∨ k = "min_ratio" then
    match pyFloat v with
    | Except.error _ => true
    | Except.ok _ => false
  else if k = "min_sec_left" then
    match pyInt v with
    | Except.error _ => true
    | Except.ok _ => false
  else false

/-! ## Dictionary lemmas -/

lemma dlookup_cons {α : Type} (a : String) (b : α) (t : List (String × α)) (k : String) :
    dlookup k ((a, b) :: t) = if a = k then some b else dlookup k t := rfl

lemma dlookup_append_some {α : Type} {k : String} {l1 l2 : List (String × α)} {v : α}
    (h : dlookup k l1 = some v) : dlookup k (l1 ++ l2) = some v := by
  induction l1 with
  | nil => simp [dlookup] at h
  | cons hd t ih =>
      obtain ⟨a, b⟩ := hd
      rw [List.cons_append, dlookup_cons] at *
      by_cases hc : a = k
      · simpa [hc] using h
      · rw [if_neg hc] at h ⊢
        exact ih h

lemma dlookup_append_none {α : Type} {k : String} {l1 l2 : List (String × α)}
    (h : dlookup k l1 = none) : dlookup k (l1 ++ l2) = dlookup k l2 := by
  induction l1 with
  | nil => rfl
  | cons hd t ih =>
      obtain ⟨a, b⟩ := hd
      rw [List.cons_append, dlookup_cons] at *
      by_cases hc : a = k
      · simp [hc] at h
      · rw [if_neg hc] at h ⊢
        exact ih h

lemma dlookup_setKey_self {α : Type} (l : List (String × α)) (k : String) (v : α) :
    dlookup k (setKey l k v) = some v := by
  induction l with
  | nil => simp [setKey, dlookup]
  | cons hd t ih =>
      obtain ⟨a, b⟩ := hd
      by_cases hc : a = k
      · simp [setKey, hc, dlookup]
      · simpa [setKey, hc, dlookup_cons] using ih

lemma dlookup_setKey_ne {α : Type} (l : List (String × α)) {x k : String} (v : α)
    (h : x ≠ k) : dlookup x (setKey l k v) = dlookup x l := by
  induction l with
  | nil => simp [setKey, dlookup, Ne.symm h]
  | cons hd t ih =>
      obtain ⟨a, b⟩ := hd
      by_cases hc : a = k
      · subst hc
        simp [setKey, dlookup_cons, Ne.symm h]
      · rw [show setKey ((a, b) :: t) k v = (a, b) :: setKey t k v by simp [setKey, hc],
          dlookup_cons, dlookup_cons, ih]

lemma dlookup_eq_none_of_keys {α : Type} {l : List (String × α)} {k : String}
    (h : ∀ p ∈ l, p.1 ≠ k) : dlookup k l = none := by
  induction l with
  | nil => rfl
  | cons hd t ih =>
      obtain ⟨a, b⟩ := hd
      rw [dlookup_cons, if_neg (h (a, b) (List.mem_cons_self _ _))]
      exact ih fun p hp => h p (List.mem_cons_of_mem _ hp)

lemma dlookup_filter {p : String × Val → Bool} {l : Dict} {k : String} {v : Val}
    (h : dlookup k (l.filter p) = some v) : p (k, v) = true := by
  induction l with
  | nil => simp [dlookup] at h
  | cons hd t ih =>
      obtain ⟨a, b⟩ := hd
      by_cases hp : p (a, b)
      · rw [List.filter_cons_of_pos hp, dlookup_cons] at h
        by_cases hc : a = k
        · obtain rfl := hc
          rw [if_pos rfl] at h
          obtain rfl : b = v := by simpa using h
          exact hp
        · rw [if_neg hc] at h
          exact ih h
      · rw [List.filter_cons_of_neg (by simpa using hp)] at h
        exact ih h

/-! ## from_dict lemmas -/

lemma from_dict_congr {d₁ d₂ : Dict}
    (h : ∀ k, k ∈ fieldNames → dlookup k d₁ = dlookup k d₂) :
    from_dict d₁ = from_dict d₂ := by
  have h1 := h "ratio" (by simp [fieldNames])
  have h2 := h "min_coins" (by simp [fieldNames])
  have h3 := h "min_ratio" (by simp [fieldNames])
  have h4 := h "min_sec_left" (by simp [fieldNames])
  have h5 := h "alert_enabled" (by simp [fieldNames])
  unfold from_dict dget
  rw [h1, h2, h3, h4, h5]

/-- Round trip: re-reading a stored normalized record reproduces it. -/
lemma from_dict_asdict (c : Config) : from_dict (asdict c) = Except.ok c := rfl

lemma from_dict_nil : from_dict [] = Except.ok defaultConfig := by
  with_unfolding_all rfl

lemma from_dict_err_ratio {d : Dict}
    (h : pyFloat (dget d "ratio" (Val.vfloat 1.5)) = Except.error ()) :
    from_dict d = Except.error () := by
  unfold from_dict
  rw [h]

lemma from_dict_err_min_coins {d : Dict}
    (h : pyFloat (dget d "min_coins" (Val.vfloat 100.0)) = Except.error ()) :
    from_dict d = Except.error () := by
  unfold from_dict
  cases pyFloat (dget d "ratio" (Val.vfloat 1.5))
  · rfl
  · rw [h]

lemma from_dict_err_min_ratio {d : Dict}
    (h : pyFloat (dget d "min_ratio" (Val.vfloat 1.5)) = Except.error ()) :
    from_dict d = Except.error () := by
  unfold from_dict
  cases pyFloat (dget d "ratio" (Val.vfloat 1.5))
  · rfl
  · cases pyFloat (dget d "min_coins" (Val.vfloat 100.0))
    · rfl
    · rw [h]

lemma from_dict_err_min_sec_left {d : Dict}
    (h : pyInt (dget d "min_sec_left" (Val.vint 20)) = Except.error ()) :
    from_dict d = Except.error () := by
  unfold from_dict
  cases pyFloat (dget d "ratio" (Val.vfloat 1.5))
  · rfl
  · cases pyFloat (dget d "min_coins" (Val.vfloat 100.0))
    · rfl
    · cases pyFloat (dget d "min_ratio" (Val.vfloat 1.5))
      · rfl
      · rw [h]

lemma from_dict_ok_min_sec_left {d : Dict} {c : Config} (h : from_dict d = Except.ok c) :
    pyInt (dget d "min_sec_left" (Val.vint 20)) = Except.ok c.min_sec_left := by
  unfold from_dict at h
  cases h1 : pyFloat (dget d "ratio" (Val.vfloat 1.5)) <;> simp [h1] at h
  cases h2 : pyFloat (dget d "min_coins" (Val.vfloat 100.0)) <;> simp [h2] at h
  cases h3 : pyFloat (dget d "min_ratio" (Val.vfloat 1.5)) <;> simp [h3] at h
  cases h4 : pyInt (dget d "min_sec_left" (Val.vint 20)) <;> simp [h4] at h
  subst h
  rfl

/-- Truncation toward zero agrees with the floor on nonnegative input. -/
lemma ratTrunc_eq_floor {q : ℚ} (hq : 0 ≤ q) : ratTrunc q = ⌊q⌋ := by
  have hnum : 0 ≤ q.num := Rat.num_nonneg.mpr hq
  rw [ratTrunc, if_pos hnum, Rat.floor_def, Int.ofNat_tdiv, Int.natAbs_of_nonneg hnum,
    Int.tdiv_eq_ediv hnum (by positivity)]

/-! ## pyOrD lemmas -/

lemma pyOrD_some_nil (r : Dict) : pyOrD (some r) [] = r := by
  cases r <;> rfl

lemma pyOrD_some_of_ne_nil {d : Dict} (y : Dict) (h : d ≠ []) : pyOrD (some d) y = d := by
  cases d with
  | nil => exact absurd rfl h
  | cons a t => rfl

lemma asdict_ne_nil (c : Config) : asdict c ≠ [] := by simp [asdict]

/-! ## Claim theorems -/

/-- C3: for every customer id with no stored record, if the
default-customer id has a stored record `r` then `resolve` returns the
record obtained from `r`'s stored field values, fully populated and
type-coerced (`from_dict r`), which is also exactly what resolving the
default customer itself returns.  `get_cfg` takes no storage output at
all in this embedding: reads never mutate storage. -/
theorem resolve_missing_id_uses_default_record (env : Env) (store : Store)
    (cid : String) (r : Dict)
    (habs : dlookup cid store = none)
    (hdef : dlookup env.default_customer_id store = some r) :
    get_cfg env (Storage.table store) cid = from_dict r ∧
    get_cfg env (Storage.table store) cid =
      get_cfg env (Storage.table store) env.default_customer_id := by
  simp only [get_cfg, _load_store]
  rw [habs, hdef]
  cases r <;> simp [pyOrD]

theorem resolve_missing_id_uses_default_record_witness :
    get_cfg (Env.mk "DEFAULT" none)
        (Storage.table [("DEFAULT", [("ratio", Val.vfloat 2)])]) "X" =
      from_dict [("ratio", Val.vfloat 2)] ∧
    get_cfg (Env.mk "DEFAULT" none)
        (Storage.table [("DEFAULT", [("ratio", Val.vfloat 2)])]) "X" =
      get_cfg (Env.mk "DEFAULT" none)
        (Storage.table [("DEFAULT", [("ratio", Val.vfloat 2)])]) "DEFAULT" :=
  resolve_missing_id_uses_default_record (Env.mk "DEFAULT" none)
    [("DEFAULT", [("ratio", Val.vfloat 2)])] "X" [("ratio", Val.vfloat 2)]
    (by decide) (by decide)

/-- C4: if neither the customer id nor the default-customer id has a
stored record, `resolve` returns exactly the all-defaults record
`ratio=1.5, min_coins=100.0, min_ratio=1.5, min_sec_left=20,
alert_enabled=true`. -/
theorem resolve_no_records_gives_defaults (env : Env) (store : Store) (cid : String)
    (h1 : dlookup cid store = none)
    (h2 : dlookup env.default_customer_id store = none) :
    get_cfg env (Storage.table store) cid =
      Except.ok (Config.mk 1.5 100.0 1.5 20 true) := by
  simp only [get_cfg, _load_store]
  rw [h1, h2]
  exact from_dict_nil

theorem resolve_no_records_gives_defaults_witness :
    get_cfg (Env.mk "DEFAULT" none) (Storage.table []) "anyone" =
      Except.ok (Config.mk 1.5 100.0 1.5 20 true) :=
  resolve_no_records_gives_defaults (Env.mk "DEFAULT" none) [] "anyone"
    (by decide) (by decide)

/-- C8: an absent or unreadable/malformed backing store loads as the
empty table (`_load_store` is total: it never raises), and every
resolve over such storage coincides with the resolve over an empty
table — hence returns the all-defaults record. -/
theorem load_failure_is_empty_table (env : Env) (cid : String) :
    _load_store Storage.absent = [] ∧
    _load_store Storage.corrupt = [] ∧
    get_cfg env Storage.absent cid = get_cfg env (Storage.table []) cid ∧
    get_cfg env Storage.corrupt cid = get_cfg env (Storage.table []) cid ∧
    get_cfg env Storage.absent cid = Except.ok defaultConfig :=
  ⟨rfl, rfl, rfl, rfl, from_dict_nil⟩

/-- C10: a customer id whose stored record exists but is the empty
field map is treated by `resolve` exactly like an absent one: the Python
`or` chain treats the empty dict as falsy and falls through to the
default customer's record (here with a nonempty default record `r`; an
empty `r` falls through once more to the empty dict, whose resolution
coincides with `from_dict r` anyway). -/
theorem resolve_empty_record_falls_through (env : Env) (store : Store)
    (cid : String) (r : Dict)
    (hcid : dlookup cid store = some [])
    (hdef : dlookup env.default_customer_id store = some r) :
    get_cfg env (Storage.table store) cid = from_dict r ∧
    get_cfg env (Storage.table store) cid =
      get_cfg env (Storage.table store) env.default_customer_id := by
  simp only [get_cfg, _load_store]
  rw [hcid, hdef]
  cases r <;> simp [pyOrD]

theorem resolve_empty_record_falls_through_witness :
    get_cfg (Env.mk "DEFAULT" none)
        (Storage.table [("X", []), ("DEFAULT", [("ratio", Val.vfloat 2)])]) "X" =
      from_dict [("ratio", Val.vfloat 2)] ∧
    get_cfg (Env.mk "DEFAULT" none)
        (Storage.table [("X", []), ("DEFAULT", [("ratio", Val.vfloat 2)])]) "X" =
      get_cfg (Env.mk "DEFAULT" none)
        (Storage.table [("X", []), ("DEFAULT", [("ratio", Val.vfloat 2)])]) "DEFAULT" :=
  resolve_empty_record_falls_through (Env.mk "DEFAULT" none)
    [("X", []), ("DEFAULT", [("ratio", Val.vfloat 2)])] "X" [("ratio", Val.vfloat 2)]
    (by decide) (by decide)

/-- Unfolding of `coerceFails` into the failing coercion it records. -/
lemma coerceFails_cases {k : String} {v : Val} (h : coerceFails k v = true) :
    ((k = "ratio" ∨ k = "min_coins" ∨ k = "min_ratio") ∧ pyFloat v = Except.error ()) ∨
    (k = "min_sec_left" ∧ pyInt v = Except.error ()) := by
  unfold coerceFails at h
  by_cases h1 : k = "ratio" ∨ k = "min_coins" ∨ k = "min_ratio"
  · rw [if_pos h1] at h
    refine Or.inl ⟨h1, ?_⟩
    cases hv : pyFloat v with
    | error e => rfl
    | ok q => rw [hv] at h; simp at h
  · rw [if_neg h1] at h
    by_cases h2 : k = "min_sec_left"
    · rw [if_pos h2] at h
      refine Or.inr ⟨h2, ?_⟩
      cases hv : pyInt v with
      | error e => rfl
      | ok n => rw [hv] at h; simp at h
    · rw [if_neg h2] at h
      simp at h

/-- Core of the error-handling claims: a payload entry whose coercion
fails makes `set_cfg` raise out of `from_dict` before `_save_store`
runs, so the result is the error together with the untouched storage. -/
lemma set_cfg_error_of_bad_field {st : Storage} {cid : String} {data : Dict}
    {k : String} {v : Val}
    (hk : dlookup k data = some v) (hfail : coerceFails k v = true) :
    set_cfg st cid data = (st, Except.error ()) := by
  have hm : dlookup k (dictUnion ((dlookup cid (_load_store st)).getD []) data) = some v :=
    dlookup_append_some hk
  have hfd : from_dict (dictUnion ((dlookup cid (_load_store st)).getD []) data) =
      Except.error () := by
    rcases coerceFails_cases hfail with ⟨h1, hpf⟩ | ⟨h2, hpi⟩
    · rcases h1 with rfl | rfl | rfl
      · exact from_dict_err_ratio (by simp [dget, hm, hpf])
      · exact from_dict_err_min_coins (by simp [dget, hm, hpf])
      · exact from_dict_err_min_ratio (by simp [dget, hm, hpf])
    · subst h2
      exact from_dict_err_min_sec_left (by simp [dget, hm, hpi])
  simp only [set_cfg]
  rw [hfd]

/-- C5: if any present field of an update payload fails its
numeric coercion, `set_cfg` raises and the persisted table is exactly
what it was before the call — nothing of the payload is applied and no
partially updated record is persisted.  (`alert_enabled` is coerced
with `bool()`, which never fails, so `coerceFails` is `false` there.) -/
theorem update_invalid_field_is_atomic (st : Storage) (cid : String) (data : Dict)
    (k : String) (v : Val)
    (hk : dlookup k data = some v) (hfail : coerceFails k v = true) :
    set_cfg st cid data = (st, Except.error ()) :=
  set_cfg_error_of_bad_field hk hfail

theorem update_invalid_field_is_atomic_witness :
    set_cfg (Storage.table [("A", [("ratio", Val.vfloat 2)])]) "A"
        [("min_coins", Val.vstr "abc")] =
      (Storage.table [("A", [("ratio", Val.vfloat 2)])], Except.error ()) :=
  update_invalid_field_is_atomic (Storage.table [("A", [("ratio", Val.vfloat 2)])])
    "A" [("min_coins", Val.vstr "abc")] "min_coins" (Val.vstr "abc")
    (by decide) (by with_unfolding_all decide)

/-- C6: an update whose payload maps one of the four numeric fields to
a string that does not parse as a number raises a value error out of
`set_cfg`; it never silently falls back to the field's default the way
a missing key does (the result is an error, not a success). -/
theorem update_nonnumeric_string_raises (st : Storage) (cid : String) (data : Dict)
    (k : String) (s : String)
    (hnum : k ∈ numericFields)
    (hk : dlookup k data = some (Val.vstr s))
    (hfail : (if k = "min_sec_left" then (parseInt s).isNone
              else (parseFloat s).isNone) = true) :
    set_cfg st cid data = (st, Except.error ()) ∧
    ∀ c : Config, (set_cfg st cid data).2 ≠ Except.ok c := by
  have hcf : coerceFails k (Val.vstr s) = true := by
    have hmem : k = "ratio" ∨ k = "min_coins" ∨ k = "min_ratio" ∨ k = "min_sec_left" := by
      simpa [numericFields] using hnum
    rcases hmem with rfl | rfl | rfl | rfl
    · rw [if_neg (by decide)] at hfail
      unfold coerceFails
      rw [if_pos (by simp)]
      cases hps : parseFloat s
      · simp [pyFloat, hps]
      · rw [hps] at hfail; simp at hfail
    · rw [if_neg (by decide)] at hfail
      unfold coerceFails
      rw [if_pos (by simp)]
      cases hps : parseFloat s
      · simp [pyFloat, hps]
      · rw [hps] at hfail; simp at hfail
    · rw [if_neg (by decide)] at hfail
      unfold coerceFails
      rw [if_pos (by simp)]
      cases hps : parseFloat s
      · simp [pyFloat, hps]
      · rw [hps] at hfail; simp at hfail
    · rw [if_pos rfl] at hfail
      unfold coerceFails
      rw [if_neg (by decide), if_pos rfl]
      cases hps : parseInt s
      · simp [pyInt, hps]
      · rw [hps] at hfail; simp at hfail
  have h : set_cfg st cid data = (st, Except.error ()) :=
    set_cfg_error_of_bad_field hk hcf
  exact ⟨h, fun c => by rw [h]; simp⟩

theorem update_nonnumeric_string_raises_witness :
    set_cfg (Storage.table []) "DEFAULT" [("ratio", Val.vstr "fast")] =
      (Storage.table [], Except.error ()) ∧
    ∀ c : Config,
      (set_cfg (Storage.table []) "DEFAULT" [("ratio", Val.vstr "fast")]).2 ≠
        Except.ok c :=
  update_nonnumeric_string_raises (Storage.table []) "DEFAULT"
    [("ratio", Val.vstr "fast")] "ratio" "fast"
    (by decide) (by decide) (by with_unfolding_all decide)

/-- C7: an update payload carrying a float for `min_sec_left` stores
the integer obtained by truncation toward zero (`ratTrunc`), which on
nonnegative input is the floor — truncation, not rounding. -/
theorem update_min_sec_left_truncates (st : Storage) (cid : String) (data : Dict)
    (q : ℚ) (cfg : Config)
    (hk : dlookup "min_sec_left" data = some (Val.vfloat q))
    (hok : (set_cfg st cid data).2 = Except.ok cfg) :
    cfg.min_sec_left = ratTrunc q ∧ (0 ≤ q → cfg.min_sec_left = ⌊q⌋) := by
  have hfd : from_dict (dictUnion ((dlookup cid (_load_store st)).getD []) data) =
      Except.ok cfg := by
    simp only [set_cfg] at hok
    cases hm : from_dict (dictUnion ((dlookup cid (_load_store st)).getD []) data) with
    | error e => rw [hm] at hok; simp at hok
    | ok c => rw [hm] at hok; simp at hok; rw [hok]
  have hpi := from_dict_ok_min_sec_left hfd
  have hv : dget (dictUnion ((dlookup cid (_load_store st)).getD []) data)
      "min_sec_left" (Val.vint 20) = Val.vfloat q := by
    simp [dget, dictUnion, dlookup_append_some hk]
  rw [hv] at hpi
  have htr : ratTrunc q = cfg.min_sec_left := by simpa [pyInt] using hpi
  exact ⟨htr.symm, fun hq => by rw [← htr, ratTrunc_eq_floor hq]⟩

theorem update_min_sec_left_truncates_witness :
    (set_cfg (Storage.table []) "DEFAULT"
        [("min_coins", Val.vint 50), ("min_sec_left", Val.vfloat 10.9)]).2 =
      Except.ok (Config.mk 1.5 50 1.5 10 true) ∧
    (Config.mk 1.5 50 1.5 10 true).min_sec_left = ratTrunc (10.9 : ℚ) :=
  ⟨by with_unfolding_all decide,
   (update_min_sec_left_truncates (Storage.table []) "DEFAULT"
      [("min_coins", Val.vint 50), ("min_sec_left", Val.vfloat 10.9)] 10.9
      (Config.mk 1.5 50 1.5 10 true) (by with_unfolding_all decide)
      (by with_unfolding_all decide)).1⟩

/-- C9: with no admin credential configured every call passes the gate;
with one configured, a header that does not start with "Bearer " (in
particular a missing header, modelled as `""`) aborts 401, a
bearer-style header whose presented token — the stripped text after the
"Bearer " prefix — exactly equals the credential (case-sensitive full
string comparison) passes, and any other presented token aborts 403;
and a gate failure on the write endpoint leaves the stored state
untouched and produces no success response. -/
theorem auth_gate_behavior (env : Env) (hdr : String) :
    (env.admin_token = none → _require_auth env hdr = AuthOutcome.ok) ∧
    (∀ tok : String, env.admin_token = some tok → tok ≠ "" →
      (pyStartsWith hdr "Bearer " = false →
        _require_auth env hdr = AuthOutcome.unauthenticated) ∧
      (pyStartsWith hdr "Bearer " = true →
        (pyStrip (pyDrop hdr 7) = tok → _require_auth env hdr = AuthOutcome.ok) ∧
        (pyStrip (pyDrop hdr 7) ≠ tok →
          _require_auth env hdr = AuthOutcome.forbidden))) ∧
    (∀ (st : Storage) (cid : String) (payload : Dict),
      _require_auth env hdr ≠ AuthOutcome.ok →
      (api_update_config env hdr st cid payload).1 = st ∧
      ∀ c : Config,
        (api_update_config env hdr st cid payload).2 ≠ ApiResponse.ok c) := by
  refine ⟨?_, ?_, ?_⟩
  · intro h
    simp [_require_auth, h]
  · intro tok htok hne
    refine ⟨?_, ?_⟩
    · intro hsw
      simp [_require_auth, htok, hne, hsw]
    · intro hsw
      refine ⟨?_, ?_⟩
      · intro heq
        simp [_require_auth, htok, hne, hsw, heq]
      · intro hne2
        simp [_require_auth, htok, hne, hsw, hne2]
  · intro st cid payload hna
    cases ha : _require_auth env hdr with
    | ok => exact absurd ha hna
    | unauthenticated => simp [api_update_config, ha]
    | forbidden => simp [api_update_config, ha]

theorem auth_gate_behavior_witness :
    _require_auth (Env.mk "DEFAULT" none) "" = AuthOutcome.ok ∧
    _require_auth (Env.mk "DEFAULT" (some "secret")) "Bearer secret" = AuthOutcome.ok ∧
    _require_auth (Env.mk "DEFAULT" (some "secret")) "Bearer wrong" = AuthOutcome.forbidden ∧
    _require_auth (Env.mk "DEFAULT" (some "secret")) "secret" = AuthOutcome.unauthenticated ∧
    (api_update_config (Env.mk "DEFAULT" (some "secret")) "secret"
        (Storage.table []) "A" [("ratio", Val.vint 9)]).1 = Storage.table [] := by
  refine ⟨?_, ?_, ?_, ?_, ?_⟩
  · exact (auth_gate_behavior (Env.mk "DEFAULT" none) "").1 rfl
  · exact (((auth_gate_behavior (Env.mk "DEFAULT" (some "secret")) "Bearer secret").2.1
      "secret" rfl (by decide)).2 (by decide)).1 (by decide)
  · exact (((auth_gate_behavior (Env.mk "DEFAULT" (some "secret")) "Bearer wrong").2.1
      "secret" rfl (by decide)).2 (by decide)).2 (by decide)
  · exact ((auth_gate_behavior (Env.mk "DEFAULT" (some "secret")) "secret").2.1
      "secret" rfl (by decide)).1 (by decide)
  · exact ((auth_gate_behavior (Env.mk "DEFAULT" (some "secret")) "secret").2.2
      (Storage.table []) "A" [("ratio", Val.vint 9)] (by decide)).1

/-- C1 counterexample: an update whose payload holds only the unknown
key "bogus" does NOT leave all observable state unchanged.  On the
store `{"DEFAULT": {"ratio": 2.0}}`, `set_cfg("X", {"bogus": 1})`
creates a fully-populated all-defaults record under "X", so the
subsequent resolve of "X" switches from the default customer's record
(ratio 2.0) to the all-defaults record (ratio 1.5). -/
theorem update_unknown_keys_counterexample :
    (∀ p ∈ ([("bogus", Val.vint 1)] : Dict), p.1 ∉ fieldNames) ∧
    get_cfg (Env.mk "DEFAULT" none)
        (set_cfg (Storage.table [("DEFAULT", [("ratio", Val.vfloat 2)])]) "X"
          [("bogus", Val.vint 1)]).1 "X" ≠
      get_cfg (Env.mk "DEFAULT" none)
        (Storage.table [("DEFAULT", [("ratio", Val.vfloat 2)])]) "X" :=
  ⟨by decide, by with_unfolding_all decide⟩

/-- C1 amended: an unknown-keys-only payload never stores any unknown
key (the record written back has exactly the five declared field
names), and provided the customer already has a nonempty stored raw
record and the update succeeds, the resolved record of every customer
id is unchanged by the update.  (What the update does change, and what
the counterexample exhibits, is the stored raw record itself — it is
rewritten in normalized, fully-populated form, and a missing or empty
record is created as the all-defaults record, detaching that customer
from the default-customer fallback.) -/
theorem update_unknown_keys_amended (env : Env) (store : Store) (cid : String)
    (data : Dict)
    (hkeys : ∀ p ∈ data, p.1 ∉ fieldNames)
    (raw : Dict) (hraw : dlookup cid store = some raw) (hne : raw ≠ [])
    (st2 : Storage) (cfg : Config)
    (hok : set_cfg (Storage.table store) cid data = (st2, Except.ok cfg)) :
    st2 = Storage.table (setKey store cid (asdict cfg)) ∧
    (asdict cfg).map Prod.fst = fieldNames ∧
    (∀ x : String, get_cfg env st2 x = get_cfg env (Storage.table store) x) := by
  have hmerge : from_dict (dictUnion raw data) = from_dict raw :=
    from_dict_congr fun k hkf =>
      dlookup_append_none (dlookup_eq_none_of_keys fun p hp heq => hkeys p hp (heq ▸ hkf))
  simp only [set_cfg, _load_store] at hok
  rw [hraw, Option.getD_some, hmerge] at hok
  cases hfd : from_dict raw with
  | error e => rw [hfd] at hok; simp at hok
  | ok c =>
      rw [hfd] at hok
      rw [Prod.mk.injEq] at hok
      obtain ⟨h1, h2⟩ := hok
      obtain rfl : c = cfg := by simpa using h2
      subst h1
      refine ⟨rfl, by simp [asdict, fieldNames], ?_⟩
      intro x
      simp only [get_cfg, _load_store]
      by_cases hx : x = cid
      · subst hx
        rw [dlookup_setKey_self, hraw,
          pyOrD_some_of_ne_nil _ (asdict_ne_nil c), pyOrD_some_of_ne_nil _ hne,
          from_dict_asdict, hfd]
      · rw [dlookup_setKey_ne store (asdict c) hx]
        by_cases hd : env.default_customer_id = cid
        · rw [hd, dlookup_setKey_self, hraw, pyOrD_some_nil, pyOrD_some_nil]
          cases hL : dlookup x store with
          | none => simp only [pyOrD]; rw [from_dict_asdict, hfd]
          | some d =>
              cases d with
              | nil =>
                  show from_dict (asdict c) = from_dict raw
                  rw [from_dict_asdict, hfd]
              | cons a t => simp [pyOrD]
        · rw [dlookup_setKey_ne store (asdict c) hd]

theorem update_unknown_keys_amended_witness :
    (set_cfg (Storage.table [("A", [("ratio", Val.vfloat 2)])]) "A"
        [("bogus", Val.vint 1)]).1 =
      Storage.table (setKey [("A", [("ratio", Val.vfloat 2)])] "A"
        (asdict (Config.mk 2 100 1.5 20 true))) ∧
    (asdict (Config.mk 2 100 1.5 20 true)).map Prod.fst = fieldNames ∧
    get_cfg (Env.mk "DEFAULT" none)
        (set_cfg (Storage.table [("A", [("ratio", Val.vfloat 2)])]) "A"
          [("bogus", Val.vint 1)]).1 "A" =
      get_cfg (Env.mk "DEFAULT" none)
        (Storage.table [("A", [("ratio", Val.vfloat 2)])]) "A" := by
  have h := update_unknown_keys_amended (Env.mk "DEFAULT" none)
    [("A", [("ratio", Val.vfloat 2)])] "A" [("bogus", Val.vint 1)]
    (by decide) [("ratio", Val.vfloat 2)] (by with_unfolding_all decide)
    (by decide)
    (set_cfg (Storage.table [("A", [("ratio", Val.vfloat 2)])]) "A"
      [("bogus", Val.vint 1)]).1
    (Config.mk 2 100 1.5 20 true)
    (by with_unfolding_all decide)
  exact ⟨h.1, h.2.1, h.2.2 "A"⟩

/-- C2 counterexample: with the existing raw record
`{"A": {"ratio": 2.0}}`, the update payload `{"ratio": ""}` does not
leave the stored value 2.0 in force in a successful overlay, as the
claim predicts: `set_cfg` passes the empty string to `float()`, which
raises, and the whole update fails. -/
theorem update_empty_value_counterexample :
    dlookup "A" ([("A", [("ratio", Val.vfloat 2)])] : Store) =
      some [("ratio", Val.vfloat 2)] ∧
    set_cfg (Storage.table [("A", [("ratio", Val.vfloat 2)])]) "A"
        [("ratio", Val.vstr "")] =
      (Storage.table [("A", [("ratio", Val.vfloat 2)])], Except.error ()) ∧
    ∀ c : Config,
      (set_cfg (Storage.table [("A", [("ratio", Val.vfloat 2)])]) "A"
        [("ratio", Val.vstr "")]).2 ≠ Except.ok c := by
  refine ⟨by with_unfolding_all decide, by with_unfolding_all decide, ?_⟩
  intro c
  have h : (set_cfg (Storage.table [("A", [("ratio", Val.vfloat 2)])]) "A"
      [("ratio", Val.vstr "")]).2 = Except.error () := by with_unfolding_all decide
  rw [h]
  simp

/-- C2 amended: at `set_cfg` itself, every key present in the payload
overrides the existing raw record and every absent key keeps the
existing value, with no emptiness test (an empty string reaches the
coercion step and fails there for numeric fields).  The
present-and-non-empty filtering lives in the HTML form boundary:
`html_post_form` deletes every key whose value is `None` or `""` before
calling `set_cfg`, so a form field left empty leaves the stored field
unchanged — except `alert_enabled`, which the form handler always sets
to the boolean it derives from the submitted value. -/
theorem update_overlay_amended (store : Store) (cid : String) (data : Dict)
    (k : String) :
    (∀ v : Val, dlookup k data = some v →
      dlookup k (dictUnion ((dlookup cid store).getD []) data) = some v) ∧
    (dlookup k data = none →
      dlookup k (dictUnion ((dlookup cid store).getD []) data) =
        dlookup k ((dlookup cid store).getD [])) ∧
    (∀ (form : Dict) (v : Val), dlookup k (html_form_data form) = some v →
      v ≠ Val.vnone ∧ v ≠ Val.vstr "") ∧
    (∀ form : Dict,
      ("alert_enabled", Val.vbool (form_alert_enabled form)) ∈ html_form_data form) := by
  refine ⟨fun v hv => dlookup_append_some hv, fun hn => dlookup_append_none hn, ?_, ?_⟩
  · intro form v hv
    have hp := dlookup_filter hv
    simpa using hp
  · intro form
    simp [html_form_data, List.mem_filter]

theorem update_overlay_amended_witness :
    dlookup "ratio"
        (dictUnion ((dlookup "A" ([("A", [("ratio", Val.vfloat 2)])] : Store)).getD [])
          [("ratio", Val.vstr "2.5")]) = some (Val.vstr "2.5") ∧
    (Val.vstr "2.5" ≠ Val.vnone ∧ Val.vstr "2.5" ≠ Val.vstr "") := by
  refine ⟨?_, ?_⟩
  · exact (update_overlay_amended [("A", [("ratio", Val.vfloat 2)])] "A"
      [("ratio", Val.vstr "2.5")] "ratio").1 (Val.vstr "2.5") (by decide)
  · exact (update_overlay_amended [("A", [("ratio", Val.vfloat 2)])] "A"
      [("ratio", Val.vstr "2.5")] "ratio").2.2.1
      [("ratio", Val.vstr "2.5")] (Val.vstr "2.5") (by decide)

end Server
